import Mathlib

/-!
# Watch-Dog Sentinel — verification of the alert core

A shallow embedding of the Watch-Dog Sentinel monitoring service
(`src/services/logic.ts`, `src/services/alert.ts`, `src/index.tsx`) and
proofs about its alert state machine, sweeper selection, pulse ingestion
and configuration upsert.

All timestamps are integer seconds since epoch, modelled as `Nat`.
Database rows are modelled as Lean structures mirroring `src/types.ts`
and `src/db.sql`; the row update performed by `processCheckResult` is
modelled as a pure function returning the new row together with the
optional alert level that would be dispatched to Slack.
-/

namespace WatchDog

/-- `status` column of a check: `'ok' | 'error' | 'dead'` (src/types.ts). -/
inductive Status where
  | ok
  | error
  | dead
deriving DecidableEq, Repr

/-- Alert levels, from `src/services/alert.ts` (`AlertLevel`). -/
inductive AlertLevel where
  | critical
  | recovery
  | warning
deriving DecidableEq, Repr

/-- A `projects` row (src/types.ts `Project`, plus the `slack_webhook`
column read by `src/index.tsx`). -/
structure Project where
  id : String
  token : String
  display_name : String
  slack_webhook : Option String
  maintenance_until : Nat
  created_at : Nat
deriving DecidableEq, Repr

/-- A `checks` row (src/types.ts `Check`). `type` is the raw TEXT column
(`'heartbeat'` or `'event'`); `monitor` is the raw INTEGER column
(1 = enabled, 0 = disabled), as in the source. -/
structure Check where
  id : String
  project_id : String
  name : String
  display_name : Option String
  type_ : String
  interval : Nat
  grace : Nat
  threshold : Nat
  cooldown : Nat
  last_seen : Nat
  status : Status
  failure_count : Nat
  last_alert_at : Nat
  last_message : Option String
  monitor : Nat
deriving DecidableEq, Repr

/-- `isInSilencePeriod` from `src/services/alert.ts`:
returns true when `lastAlertAt ≠ 0` and `now - lastAlertAt <
silencePeriodSeconds` (the JS subtraction is over integers, so it is
taken in `Int`). -/
def isInSilencePeriod (lastAlertAt silencePeriodSeconds now : Nat) : Bool :=
  if lastAlertAt = 0 then false
  else decide ((now : Int) - (lastAlertAt : Int) < (silencePeriodSeconds : Int))

/-- The pure core of `processCheckResult` from `src/services/logic.ts`.

`silencePeriod` is the value of `getSilencePeriod(db)` — the global
`silence_period_seconds` setting (the source never reads
`check.cooldown` here).  The function returns the updated `checks` row
exactly as written by the UPDATE statement (status, last_seen,
failure_count, last_alert_at, last_message) together with the alert
level sent to Slack when `shouldAlert` is set. -/
def processCheckResult (silencePeriod : Nat) (check : Check) (project : Project)
    (newStatus : Status) (message : String) (now : Nat) : Check × Option AlertLevel :=
  if newStatus = Status.ok then
    if check.status ≠ Status.ok ∧ check.threshold ≤ check.failure_count then
      ({ check with status := Status.ok, last_seen := now, failure_count := 0,
                    last_alert_at := now, last_message := some message },
       some AlertLevel.recovery)
    else
      ({ check with status := Status.ok, last_seen := now, failure_count := 0,
                    last_message := some message }, none)
  else
    let failureCount := check.failure_count + 1
    if ¬ now < project.maintenance_until ∧ check.threshold ≤ failureCount ∧
        isInSilencePeriod check.last_alert_at silencePeriod now = false then
      ({ check with status := newStatus, last_seen := now, failure_count := failureCount,
                    last_alert_at := now, last_message := some message },
       some (if newStatus = Status.dead then AlertLevel.critical else AlertLevel.warning))
    else
      ({ check with status := newStatus, last_seen := now, failure_count := failureCount,
                    last_message := some message }, none)

/-- The WHERE clause of `findDeadChecks` from `src/services/logic.ts`:
`type = 'heartbeat' AND status != 'dead' AND monitor = 1 AND
(last_seen + interval + grace) < now`. -/
def deadCheckPred (now : Nat) (c : Check) : Bool :=
  decide (c.type_ = "heartbeat") && decide (c.status ≠ Status.dead) &&
    decide (c.monitor = 1) && decide (c.last_seen + c.interval + c.grace < now)

/-- `findDeadChecks` as the filter the SQL SELECT performs over the
`checks` table. -/
def findDeadChecks (now : Nat) (checks : List Check) : List Check :=
  checks.filter (deadCheckPred now)

/-- Id of the self-monitoring check written by the cron handler
(`src/index.tsx`, `scheduled`). -/
def selfCheckId : String := "watch-dog:self-health"

/-- The checks the cron `scheduled` handler actually feeds a synthetic
`'dead'` event: `findDeadChecks` minus the `continue`-skipped
self-health check (`src/index.tsx`). -/
def sweepTargets (now : Nat) (checks : List Check) : List Check :=
  (findDeadChecks now checks).filter (fun c => decide (c.id ≠ selfCheckId))

/-- One event fed to the state machine: the status passed to
`processCheckResult`, the message, and the value of `now` at that call. -/
structure Event where
  status : Status
  message : String
  time : Nat
deriving DecidableEq, Repr

/-- The sequence of check rows after each `processCheckResult` call, for
a fixed project row and global silence period. -/
def runStates (sp : Nat) (p : Project) : Check → List Event → List Check
  | _, [] => []
  | c, e :: es =>
    let c' := (processCheckResult sp c p e.status e.message e.time).1
    c' :: runStates sp p c' es

/-- The alerts (level, emission time) dispatched over a sequence of
`processCheckResult` calls, for a fixed project row and global silence
period. -/
def runAlerts (sp : Nat) (p : Project) : Check → List Event → List (AlertLevel × Nat)
  | _, [] => []
  | c, e :: es =>
    let r := processCheckResult sp c p e.status e.message e.time
    (match r.2 with
     | some l => [(l, e.time)]
     | none => []) ++ runAlerts sp p r.1 es

section PulseIngestion

/-- JS falsiness of an optional string (`undefined` or `""`), as used by
`if (!projectId)` and `if (!check_name)` in `src/index.tsx`. -/
def isFalsyStr (o : Option String) : Bool :=
  match o with
  | none => true
  | some s => decide (s = "")

/-- Body of `POST /api/pulse` (src/types.ts `PulsePayload` plus the
optional `project_id` read by the handler). -/
structure PulseBody where
  project_id : Option String
  check_name : Option String
  status : Option String
  message : Option String
  latency : Option Nat
deriving DecidableEq, Repr

/-- The parts of the HTTP request the pulse handler can observe: the two
auth headers and the parsed JSON body (`none` = malformed body, which
the handler's `catch` turns into a 400). -/
structure PulseRequest where
  xProjectToken : Option String
  authorization : Option String
  body : Option PulseBody
deriving DecidableEq, Repr

/-- The store state the pulse handler reads: `projects` and `checks`
tables, plus the resolved global `silence_period_seconds` setting. -/
structure Db where
  projects : List Project
  checks : List Check
  silence_period_seconds : Nat
deriving Repr

/-- Outcome of `POST /api/pulse`: either the 200 response
`{check_id, status, timestamp}` together with the check row written by
`processCheckResult`, or the HTTP error code returned. -/
inductive PulseResult where
  | success (check_id : String) (status : Status) (timestamp : Nat) (updated : Check)
  | failure (code : Nat)
deriving DecidableEq, Repr

/-- Project-id resolution of the pulse handler (`src/index.tsx`):
when `project_id` is falsy, look the project up by token (403
`'Invalid token'` when absent); otherwise the stored token must match
(403 `'Invalid token for project'` when the project is missing or the
token differs). -/
def resolveProjectId (db : Db) (token : String) (pid : Option String) :
    Except Nat String :=
  if isFalsyStr pid then
    match db.projects.find? (fun p => decide (p.token = token)) with
    | none => Except.error 403
    | some p => Except.ok p.id
  else
    let pidv := pid.getD ""
    match db.projects.find? (fun p => decide (p.id = pidv)) with
    | none => Except.error 403
    | some p => if p.token = token then Except.ok pidv else Except.error 403

/-- `const newStatus = status === 'error' ? 'error' : 'ok'`
(src/index.tsx), applied after the destructuring default
`status = 'ok'`; a missing status is `none` here. -/
def coercePulseStatus (s : Option String) : Status :=
  if s = some "error" then Status.error else Status.ok

/-- Default pulse message (`src/index.tsx`): `'Service reported error'`
for an error status, `'Pulse received'` otherwise. -/
def defaultPulseMessage (status : Option String) : String :=
  if status = some "error" then "Service reported error" else "Pulse received"

/-- `const pulseMessage = message || ...` with JS falsiness of the empty
string. -/
def pulseMessage (body : PulseBody) : String :=
  match body.message with
  | some m => if m = "" then defaultPulseMessage body.status else m
  | none => defaultPulseMessage body.status

/-- The `POST /api/pulse` handler from `src/index.tsx`, as a pure
function of the request, the store and `now`.  It reads the token only
from the `X-Project-Token` header (the `Authorization` header is never
consulted by the source), resolves the project, requires a truthy
`check_name`, looks up the check and project rows, coerces the status
and runs `processCheckResult`. -/
def pulseHandler (db : Db) (req : PulseRequest) (now : Nat) : PulseResult :=
  match req.xProjectToken with
  | none => PulseResult.failure 401
  | some token =>
    if token = "" then PulseResult.failure 401
    else
      match req.body with
      | none => PulseResult.failure 400
      | some body =>
        match resolveProjectId db token body.project_id with
        | Except.error code => PulseResult.failure code
        | Except.ok projectId =>
          if isFalsyStr body.check_name then PulseResult.failure 400
          else
            let checkId := projectId ++ ":" ++ body.check_name.getD ""
            match db.checks.find? (fun c => decide (c.id = checkId)) with
            | none => PulseResult.failure 404
            | some check =>
              match db.projects.find? (fun p => decide (p.id = projectId)) with
              | none => PulseResult.failure 404
              | some project =>
                let newStatus := coercePulseStatus body.status
                let r := processCheckResult db.silence_period_seconds check project
                  newStatus (pulseMessage body) now
                PulseResult.success checkId newStatus now r.1

end PulseIngestion

section ConfigUpsert

/-- One element of the `checks` array of `PUT /api/config`
(src/types.ts `CheckConfig`), after the destructuring defaults
`interval = 300, grace = 60, threshold = 1, cooldown = 900` have been
applied.  `type` is the raw string from the JSON body; the handler
validates it at runtime. -/
structure CheckConfig where
  name : String
  display_name : Option String
  type_ : String
  interval : Nat
  grace : Nat
  threshold : Nat
  cooldown : Nat
deriving DecidableEq, Repr

/-- The two `continue` guards of the config check loop
(`src/index.tsx`): skip when `!name || !type`, and skip when the type
is neither `'heartbeat'` nor `'event'`. -/
def checkConfigValid (cfg : CheckConfig) : Bool :=
  !(decide (cfg.name = "") || decide (cfg.type_ = "")) &&
    (decide (cfg.type_ = "heartbeat") || decide (cfg.type_ = "event"))

/-- `checkDisplayName || name` — the display name bound by the upsert,
with JS falsiness of the empty string. -/
def applyDisplayName (cfg : CheckConfig) : String :=
  match cfg.display_name with
  | some s => if s = "" then cfg.name else s
  | none => cfg.name

/-- The INSERT half of the check upsert (`src/index.tsx`):
a fresh row with the rule attributes from the config and the state
attributes initialised to
`last_seen = 0, status = 'ok', failure_count = 0, last_alert_at = 0,
last_message = NULL` (and the `monitor` column defaulting to 1). -/
def insertCheckRow (pid : String) (cfg : CheckConfig) : Check :=
  { id := pid ++ ":" ++ cfg.name
    project_id := pid
    name := cfg.name
    display_name := some (applyDisplayName cfg)
    type_ := cfg.type_
    interval := cfg.interval
    grace := cfg.grace
    threshold := cfg.threshold
    cooldown := cfg.cooldown
    last_seen := 0
    status := Status.ok
    failure_count := 0
    last_alert_at := 0
    last_message := none
    monitor := 1 }

/-- The `ON CONFLICT (id) DO UPDATE` half of the check upsert
(`src/index.tsx`): only `display_name, type, interval, grace,
threshold, cooldown` are set; every state attribute keeps its stored
value. -/
def updateCheckRow (row : Check) (cfg : CheckConfig) : Check :=
  { row with
    display_name := some (applyDisplayName cfg)
    type_ := cfg.type_
    interval := cfg.interval
    grace := cfg.grace
    threshold := cfg.threshold
    cooldown := cfg.cooldown }

/-- The full check upsert: INSERT when the id is absent, the
ON CONFLICT update when it exists. -/
def upsertCheck (existing : Option Check) (pid : String) (cfg : CheckConfig) : Check :=
  match existing with
  | none => insertCheckRow pid cfg
  | some row => updateCheckRow row cfg

/-- The `checks` table keyed by the `id` column. -/
abbrev CheckStore : Type := String → Option Check

/-- One iteration of the config check loop: skip invalid configs,
otherwise upsert the row with id `` `${project_id}:${name}` ``. -/
def applyCheckConfig (pid : String) (store : CheckStore) (cfg : CheckConfig) : CheckStore :=
  if checkConfigValid cfg then
    let cid := pid ++ ":" ++ cfg.name
    fun q => if q = cid then some (upsertCheck (store cid) pid cfg) else store q
  else store

/-- The whole check loop of `PUT /api/config`. -/
def registerChecks (pid : String) (store : CheckStore) (cfgs : List CheckConfig) : CheckStore :=
  cfgs.foldl (applyCheckConfig pid) store

/-- `COALESCE(?, slack_webhook)` from the project upsert. -/
def coalesce (a b : Option String) : Option String :=
  match a with
  | some v => some v
  | none => b

/-- The project upsert of `PUT /api/config` (`src/index.tsx`):
INSERT sets `maintenance_until = 0` and `created_at = now`; the
ON CONFLICT update touches only `display_name` and `slack_webhook`
(leaving `token`, `maintenance_until` and `created_at` stored). -/
def upsertProject (existing : Option Project) (pid token dn : String)
    (sw : Option String) (now : Nat) : Project :=
  match existing with
  | none =>
    { id := pid, token := token, display_name := dn, slack_webhook := sw,
      maintenance_until := 0, created_at := now }
  | some p =>
    { p with display_name := dn, slack_webhook := coalesce sw p.slack_webhook }

end ConfigUpsert

/-! ## Helper lemmas about the state machine -/

/-- The row written by `processCheckResult` always carries the incoming
status (`status = ?` is bound to `newStatus` in the UPDATE). -/
theorem processCheckResult_fst_status (sp : Nat) (c : Check) (p : Project)
    (s : Status) (m : String) (now : Nat) :
    ((processCheckResult sp c p s m now).1).status = s := by
  simp only [processCheckResult]
  split_ifs <;> simp_all

/-- The row written by `processCheckResult` always has
`last_seen = now` (the UPDATE binds `last_seen = ?` to `now`
unconditionally). -/
theorem processCheckResult_fst_last_seen (sp : Nat) (c : Check) (p : Project)
    (s : Status) (m : String) (now : Nat) :
    ((processCheckResult sp c p s m now).1).last_seen = now := by
  simp only [processCheckResult]
  split_ifs <;> rfl


/-- Invariant (I1) of the spec: a non-negative failure count that is
zero exactly on `ok` status. -/
def checkInv (c : Check) : Prop :=
  0 ≤ c.failure_count ∧ (c.status = Status.ok ↔ c.failure_count = 0)

/-- Any row produced by one `processCheckResult` step satisfies the
invariant, whatever the input row was. -/
theorem processCheckResult_checkInv (sp : Nat) (c : Check) (p : Project)
    (s : Status) (m : String) (now : Nat) :
    checkInv (processCheckResult sp c p s m now).1 := by
  simp only [processCheckResult, checkInv]
  split_ifs with h <;> refine ⟨Nat.zero_le _, ?_⟩ <;> simp_all

/-- Every intermediate row of a run satisfies the invariant. -/
theorem runStates_checkInv (sp : Nat) (p : Project) (c : Check) (es : List Event) :
    ∀ c' ∈ runStates sp p c es, checkInv c' := by
  induction es generalizing c with
  | nil => intro c' h; simp [runStates] at h
  | cons e es ih =>
    intro c' h
    simp only [runStates, List.mem_cons] at h
    rcases h with h | h
    · subst h; exact processCheckResult_checkInv ..
    · exact ih _ _ h

/-! ## Concrete fixtures -/

/-- A project row with no maintenance window. -/
def demoProject : Project :=
  { id := "proj", token := "tok", display_name := "Proj", slack_webhook := none,
    maintenance_until := 0, created_at := 0 }

/-- A healthy heartbeat check that last pulsed at t = 100. -/
def c1Check : Check :=
  { id := "proj:beat", project_id := "proj", name := "beat",
    display_name := some "beat", type_ := "heartbeat", interval := 60, grace := 10,
    threshold := 3, cooldown := 900, last_seen := 100, status := Status.ok,
    failure_count := 0, last_alert_at := 0, last_message := none, monitor := 1 }

/-! ## C1 -/

/-- C1: the claim says a synthetic `dead` event leaves `last_seen`
unchanged, but `processCheckResult` binds `last_seen = now` in its
single UPDATE statement for every event: a `dead` event at t = 200 moves
`last_seen` of `c1Check` from 100 to 200. -/
theorem dead_event_advances_last_seen :
    ((processCheckResult 3600 c1Check demoProject Status.dead
        "Heartbeat missed! Last seen: 100s ago" 200).1).last_seen = 200 ∧
      c1Check.last_seen = 100 := by
  exact ⟨rfl, rfl⟩

/-- `last_seen` of the rows along a run follows the event times:
every transition—real pulse or synthetic dead—rewrites `last_seen` to
its own `now`. -/
theorem runStates_map_last_seen (sp : Nat) (p : Project) (c : Check) (es : List Event) :
    (runStates sp p c es).map Check.last_seen = es.map Event.time := by
  induction es generalizing c with
  | nil => rfl
  | cons e es ih =>
    simp only [runStates, List.map_cons, processCheckResult_fst_last_seen]
    exact congrArg _ (ih _)

/-- C1 amended: the single UPDATE of `processCheckResult` binds
`last_seen = now` for every event, synthetic `dead` events included, so
`last_seen` after each transition equals that event's time; it is
therefore non-decreasing precisely because event times are
non-decreasing, not because dead events skip the field. -/
theorem last_seen_follows_event_times :
    (∀ (sp : Nat) (c : Check) (p : Project) (s : Status) (m : String) (now : Nat),
      ((processCheckResult sp c p s m now).1).last_seen = now) ∧
    (∀ (sp : Nat) (p : Project) (c : Check) (es : List Event),
      (runStates sp p c es).map Check.last_seen = es.map Event.time) ∧
    (∀ (sp : Nat) (p : Project) (c : Check) (es : List Event),
      List.Chain (· ≤ ·) c.last_seen (es.map Event.time) →
      List.Chain (· ≤ ·) c.last_seen ((runStates sp p c es).map Check.last_seen)) := by
  refine ⟨processCheckResult_fst_last_seen, runStates_map_last_seen, ?_⟩
  intro sp p c es h
  rw [runStates_map_last_seen]
  exact h

/-- Closed instance of the amended C1: one `dead` event at t = 200
moves `c1Check.last_seen` along the (non-decreasing) event times. -/
theorem last_seen_follows_event_times_witness :
    List.Chain (· ≤ ·) c1Check.last_seen
      ((runStates 3600 demoProject c1Check [⟨Status.dead, "m", 200⟩]).map Check.last_seen) :=
  last_seen_follows_event_times.2.2 3600 demoProject c1Check
    [⟨Status.dead, "m", 200⟩] (by simp [c1Check])

/-! ## C2 -/

/-- A check with a short per-check cooldown of 60 s that alerted at
t = 1000. -/
def c2Check : Check :=
  { c1Check with threshold := 1, cooldown := 60, last_alert_at := 1000 }

/-- C2: the claim says the effective cooldown is the check's own
`cooldown` whenever it is > 0; but `processCheckResult` only ever
compares against the global `silence_period_seconds` from
`getSilencePeriod` and never reads `check.cooldown`.  At t = 2000 the
check's 60 s cooldown has long elapsed (1000 s since the last alert),
yet no alert is emitted because the global 3600 s window is still open. -/
theorem per_check_cooldown_ignored :
    (processCheckResult 3600 c2Check demoProject Status.error "boom" 2000).2 = none ∧
      c2Check.cooldown ≤ 2000 - c2Check.last_alert_at ∧
      0 < c2Check.cooldown ∧
      c2Check.threshold ≤ c2Check.failure_count + 1 ∧
      demoProject.maintenance_until = 0 := by
  exact ⟨rfl, by decide, by decide, by decide, rfl⟩

/-! ## C5 -/

/-- A check with threshold 1 and a per-check cooldown of 7200 s. -/
def c5Check : Check :=
  { c1Check with threshold := 1, cooldown := 7200 }

/-- C5: the claim bounds the spacing of two non-recovery alerts by the
effective per-check cooldown (7200 s here); the code spaces them only by
the global 3600 s silence period, so two warning alerts are emitted
3600 s apart — closer than `c5Check.cooldown` allows. -/
theorem cooldown_spacing_violated :
    runAlerts 3600 demoProject c5Check
        [⟨Status.error, "e1", 1000⟩, ⟨Status.error, "e2", 4600⟩] =
      [(AlertLevel.warning, 1000), (AlertLevel.warning, 4600)] ∧
      4600 - 1000 < c5Check.cooldown := by
  exact ⟨rfl, by decide⟩

/-! ## C3 -/

/-- A project inside a maintenance window until t = 1000. -/
def c3Project : Project := { demoProject with maintenance_until := 1000 }

/-- A check that already alerted its way into `error` at threshold. -/
def c3Check : Check :=
  { c1Check with threshold := 1, status := Status.error, failure_count := 1 }

/-- C3 counterexample: the claim says no alert of any level is emitted
while `maintenance_until > now`, but the maintenance guard of
`processCheckResult` sits only on the failure branch: a `pulse_ok` at
t = 500, inside the window (1000 > 500), still emits a recovery alert. -/
theorem alert_emitted_during_maintenance :
    c3Project.maintenance_until > 500 ∧
      (processCheckResult 3600 c3Check c3Project Status.ok "back" 500).2 =
        some AlertLevel.recovery := by
  exact ⟨by decide, rfl⟩

/-- C3 amended: while `maintenance_until > now`, a `pulse_error` or
`dead` event emits no alert and still increments `failure_count`
(maintenance suppresses emission but never resets the count); recovery
emission on `pulse_ok` is independent of the project's maintenance
window. -/
theorem maintenance_suppresses_failure_alerts (sp : Nat) (c : Check) (p : Project)
    (s : Status) (m : String) (now : Nat)
    (hs : s = Status.error ∨ s = Status.dead)
    (hm : p.maintenance_until > now) :
    (processCheckResult sp c p s m now).2 = none ∧
      ((processCheckResult sp c p s m now).1).failure_count = c.failure_count + 1 ∧
      ∀ p₁ p₂ : Project,
        processCheckResult sp c p₁ Status.ok m now =
          processCheckResult sp c p₂ Status.ok m now := by
  have hne : ¬ s = Status.ok := by rcases hs with h | h <;> subst h <;> simp
  have hcond : ¬ (¬ now < p.maintenance_until ∧ c.threshold ≤ c.failure_count + 1 ∧
      isInSilencePeriod c.last_alert_at sp now = false) := by
    intro hc
    exact hc.1 hm
  refine ⟨?_, ?_, ?_⟩
  · simp only [processCheckResult]
    split_ifs
    simp_all
  · simp only [processCheckResult]
    split_ifs
    simp_all
  · intro p₁ p₂
    simp [processCheckResult]

/-- Closed instance of the amended C3 theorem: a `pulse_error` at
t = 500 during `c3Project`'s window emits nothing and bumps the count. -/
theorem maintenance_suppresses_failure_alerts_witness :
    (processCheckResult 3600 c1Check c3Project Status.error "boom" 500).2 = none ∧
      ((processCheckResult 3600 c1Check c3Project Status.error "boom" 500).1).failure_count =
        c1Check.failure_count + 1 ∧
      ∀ p₁ p₂ : Project,
        processCheckResult 3600 c1Check p₁ Status.ok "boom" 500 =
          processCheckResult 3600 c1Check p₂ Status.ok "boom" 500 :=
  maintenance_suppresses_failure_alerts 3600 c1Check c3Project Status.error "boom" 500
    (Or.inl rfl) (by decide)

/-! ## C7 -/

/-- C7: comparisons are inclusive.  On a failure event outside
maintenance and outside the silence window, an alert is emitted exactly
when the post-increment failure count reaches the threshold
(`failureCount >= check.threshold` in the source); and
`isInSilencePeriod` is already false when `now - lastAlertAt` equals the
period (`elapsed < silencePeriodSeconds` is strict), with
`lastAlertAt = 0` always outside the window. -/
theorem inclusive_threshold_and_cooldown :
    (∀ (sp : Nat) (c : Check) (p : Project) (s : Status) (m : String) (now : Nat),
      (s = Status.error ∨ s = Status.dead) →
      p.maintenance_until ≤ now →
      isInSilencePeriod c.last_alert_at sp now = false →
      (((processCheckResult sp c p s m now).2).isSome ↔
        c.threshold ≤ c.failure_count + 1)) ∧
    (∀ laa sp : Nat, isInSilencePeriod laa sp (laa + sp) = false) ∧
    (∀ sp now : Nat, isInSilencePeriod 0 sp now = false) := by
  refine ⟨?_, ?_, ?_⟩
  · intro sp c p s m now hs hm hsil
    have hne : ¬ s = Status.ok := by rcases hs with h | h <;> subst h <;> simp
    have hnm : ¬ now < p.maintenance_until := Nat.not_lt.mpr hm
    by_cases hthr : c.threshold ≤ c.failure_count + 1
    · simp only [processCheckResult]
      split_ifs <;> simp_all
    · simp only [processCheckResult]
      split_ifs <;> simp_all
  · intro laa sp
    simp only [isInSilencePeriod]
    split_ifs with h
    · rfl
    · simp only [decide_eq_false_iff_not, not_lt]
      push_cast
      omega
  · intro sp now
    rfl

/-- A failing check one step short of its threshold. -/
def c7Check : Check :=
  { c1Check with threshold := 2, status := Status.error, failure_count := 1 }

/-- Closed instance of C7: `c7Check` hits its threshold of 2 on the
second consecutive failure, and the two boundary facts about
`isInSilencePeriod`. -/
theorem inclusive_threshold_and_cooldown_witness :
    (((processCheckResult 600 c7Check demoProject Status.error "e" 50).2).isSome ↔
      c7Check.threshold ≤ c7Check.failure_count + 1) ∧
      isInSilencePeriod 5 600 605 = false ∧
      isInSilencePeriod 0 600 99 = false :=
  ⟨inclusive_threshold_and_cooldown.1 600 c7Check demoProject Status.error "e" 50
      (Or.inl rfl) (by decide) (by decide),
    inclusive_threshold_and_cooldown.2.1 5 600,
    inclusive_threshold_and_cooldown.2.2 600 99⟩

/-! ## C8 -/

/-- C8: the cron sweep feeds a synthetic `dead` event to exactly the
checks matching the SQL WHERE clause minus the skipped self-health
check; a check of type `'event'` is never selected, and a check whose
deadline `last_seen + interval + grace` equals `now` is not yet
overdue (the comparison is strict). -/
theorem sweep_selects_exactly_overdue (now : Nat) (checks : List Check) (c : Check) :
    (c ∈ sweepTargets now checks ↔
      c ∈ checks ∧ c.type_ = "heartbeat" ∧ c.status ≠ Status.dead ∧ c.monitor = 1 ∧
        c.last_seen + c.interval + c.grace < now ∧ c.id ≠ selfCheckId) ∧
    (c.type_ = "event" → c ∉ sweepTargets now checks) ∧
    (c.last_seen + c.interval + c.grace = now → c ∉ sweepTargets now checks) := by
  have hmem : c ∈ sweepTargets now checks ↔
      c ∈ checks ∧ c.type_ = "heartbeat" ∧ c.status ≠ Status.dead ∧ c.monitor = 1 ∧
        c.last_seen + c.interval + c.grace < now ∧ c.id ≠ selfCheckId := by
    simp only [sweepTargets, findDeadChecks, deadCheckPred, List.mem_filter,
      Bool.and_eq_true, decide_eq_true_eq, ne_eq]
    tauto
  refine ⟨hmem, ?_, ?_⟩
  · intro hev hc
    have := (hmem.mp hc).2.1
    rw [hev] at this
    exact absurd this (by decide)
  · intro heq hc
    have := (hmem.mp hc).2.2.2.2.1
    omega

/-- An `event`-type check sitting exactly on the (irrelevant for it)
deadline `last_seen + interval + grace = 460`. -/
def c8Check : Check :=
  { c1Check with
    id := "proj:job", name := "job", type_ := "event",
    last_seen := 390, interval := 60, grace := 10 }

/-- Closed instance of C8: `c8Check` is never swept — neither for being
an `event`-type check nor at the exact deadline boundary. -/
theorem sweep_selects_exactly_overdue_witness :
    c8Check ∉ sweepTargets 9999 [c8Check] ∧ c8Check ∉ sweepTargets 460 [c8Check] :=
  ⟨(sweep_selects_exactly_overdue 9999 [c8Check] c8Check).2.1 rfl,
    (sweep_selects_exactly_overdue 460 [c8Check] c8Check).2.2 rfl⟩

/-! ## C6 -/

/-- C6: from the initial state (`status = ok`, `failure_count = 0`) the
invariant `failure_count ≥ 0 ∧ (status = ok ↔ failure_count = 0)` holds,
and it keeps holding after every transition of any event sequence. -/
theorem failure_count_status_invariant (sp : Nat) (p : Project) (c : Check)
    (es : List Event) (hst : c.status = Status.ok) (hfc : c.failure_count = 0) :
    checkInv c ∧ ∀ c' ∈ runStates sp p c es, checkInv c' :=
  ⟨⟨Nat.zero_le _, by simp [hst, hfc]⟩, runStates_checkInv sp p c es⟩

/-- The row after `c1Check` takes one `pulse_error` at t = 10. -/
def c6Row : Check :=
  { c1Check with
    status := Status.error, last_seen := 10, failure_count := 1,
    last_message := some "e" }

/-- Closed instance of C6 on a one-event run. -/
theorem failure_count_status_invariant_witness : checkInv c6Row :=
  (failure_count_status_invariant 3600 demoProject c1Check
      [⟨Status.error, "e", 10⟩] rfl rfl).2 c6Row (by decide)

/-! ## C4 -/

/-- A well-formed pulse body addressed at `demoProject`/`c1Check`. -/
def c4Body : PulseBody :=
  { project_id := some "proj", check_name := some "beat", status := some "ok",
    message := none, latency := none }

/-- The same pulse sent with the documented `Authorization: Bearer`
header only. -/
def c4BearerReq : PulseRequest :=
  { xProjectToken := none, authorization := some "Bearer tok", body := some c4Body }

/-- The same pulse sent with the legacy `X-Project-Token` header. -/
def c4LegacyReq : PulseRequest :=
  { xProjectToken := some "tok", authorization := none, body := some c4Body }

/-- A store holding `demoProject` and `c1Check`. -/
def c4Db : Db :=
  { projects := [demoProject], checks := [c1Check], silence_period_seconds := 3600 }

/-- C4: the claim says `Authorization: Bearer <token>` is accepted, but
the handler reads only `X-Project-Token`: the very same valid pulse is
rejected with 401 when sent with the Bearer header and succeeds with the
legacy header. -/
theorem bearer_auth_rejected :
    pulseHandler c4Db c4BearerReq 100 = PulseResult.failure 401 ∧
      pulseHandler c4Db c4LegacyReq 100 =
        PulseResult.success "proj:beat" Status.ok 100
          { c1Check with
            status := Status.ok, last_seen := 100, failure_count := 0,
            last_message := some "Pulse received" } := by
  exact ⟨rfl, by decide⟩

/-! ## C10 -/

/-- The coerced pulse status is never `dead`. -/
theorem coercePulseStatus_cases (s : Option String) :
    coercePulseStatus s = Status.ok ∨ coercePulseStatus s = Status.error := by
  unfold coercePulseStatus
  split_ifs <;> simp

/-- C10: every successful `POST /api/pulse` writes a row whose status is
`ok` or `error`, never `dead`; a missing body status coerces to `ok`,
and so does any status other than the exact string `"error"`. -/
theorem pulse_never_writes_dead :
    (∀ (db : Db) (req : PulseRequest) (now : Nat) (cid : String) (st : Status)
        (ts : Nat) (c' : Check),
      pulseHandler db req now = PulseResult.success cid st ts c' →
      c'.status ≠ Status.dead ∧ (c'.status = Status.ok ∨ c'.status = Status.error)) ∧
    coercePulseStatus none = Status.ok ∧
    (∀ s : Option String, s ≠ some "error" → coercePulseStatus s = Status.ok) := by
  refine ⟨?_, rfl, ?_⟩
  · intro db req now cid st ts c' h
    simp only [pulseHandler] at h
    repeat' split at h
    all_goals try exact (PulseResult.noConfusion h)
    rw [PulseResult.success.injEq] at h
    obtain ⟨h1, h2, h3, h4⟩ := h
    subst h4
    rw [processCheckResult_fst_status]
    rcases coercePulseStatus_cases _ with hc | hc <;> rw [hc] <;> simp
  · intro s hs
    unfold coercePulseStatus
    split_ifs with h
    · exact absurd h hs
    · rfl

/-- The row written by the successful legacy-header pulse of `c4Db`. -/
def c10Row : Check :=
  { c1Check with
    status := Status.ok, last_seen := 100, failure_count := 0,
    last_message := some "Pulse received" }

/-- Closed instance of C10 on the concrete pulse of `c4Db`. -/
theorem pulse_never_writes_dead_witness :
    (c10Row.status ≠ Status.dead ∧
      (c10Row.status = Status.ok ∨ c10Row.status = Status.error)) ∧
      coercePulseStatus (some "weird") = Status.ok :=
  ⟨pulse_never_writes_dead.1 c4Db c4LegacyReq 100 "proj:beat" Status.ok 100 c10Row
      (by decide),
    pulse_never_writes_dead.2.2 (some "weird") (by decide)⟩

/-! ## C9 -/

/-- `upsertCheck` on an existing row is the ON CONFLICT update. -/
theorem upsertCheck_some (r : Check) (pid : String) (cfg : CheckConfig) :
    upsertCheck (some r) pid cfg = updateCheckRow r cfg := rfl

/-- `upsertCheck` on a missing row is the INSERT. -/
theorem upsertCheck_none (pid : String) (cfg : CheckConfig) :
    upsertCheck none pid cfg = insertCheckRow pid cfg := rfl

/-- The ON CONFLICT update overwrites every rule attribute, so a second
update supersedes the first. -/
theorem updateCheckRow_updateCheckRow (r : Check) (c c' : CheckConfig) :
    updateCheckRow (updateCheckRow r c) c' = updateCheckRow r c' := rfl

/-- Updating a freshly inserted row with its own config changes
nothing: the INSERT already bound the same rule attributes. -/
theorem updateCheckRow_insertCheckRow (pid : String) (cfg : CheckConfig) :
    updateCheckRow (insertCheckRow pid cfg) cfg = insertCheckRow pid cfg := rfl

/-- A sequence of ON CONFLICT updates applied to one row. -/
def ruleFold (r : Check) (l : List CheckConfig) : Check :=
  l.foldl updateCheckRow r

/-- Once a row exists, a chain of upserts is a chain of rule updates. -/
theorem foldl_upsert_some (pid : String) (l : List CheckConfig) (r : Check) :
    l.foldl (fun x cfg => some (upsertCheck x pid cfg)) (some r) =
      some (ruleFold r l) := by
  induction l generalizing r with
  | nil => rfl
  | cons c cs ih =>
    simp only [List.foldl_cons, ruleFold, upsertCheck_some] at *
    exact ih (updateCheckRow r c)

/-- Re-running a chain of rule updates on its own result is a no-op,
provided the trailing update is already absorbed. -/
theorem ruleFold_restore (l : List CheckConfig) (r : Check) (c : CheckConfig)
    (h : updateCheckRow r c = r) :
    ruleFold (updateCheckRow (ruleFold r l) c) l = ruleFold r l := by
  induction l generalizing r c with
  | nil => simpa [ruleFold] using h
  | cons c' cs ih =>
    simp only [ruleFold, List.foldl_cons] at *
    rw [updateCheckRow_updateCheckRow]
    exact ih (updateCheckRow r c') c' (updateCheckRow_updateCheckRow r c' c')

/-- Whether a config is valid and addresses the row with id `q`. -/
def touchesKey (pid q : String) (cfg : CheckConfig) : Bool :=
  checkConfigValid cfg && decide (q = pid ++ ":" ++ cfg.name)

/-- Pointwise view of the config check loop: the row stored under `q`
is the fold of the upserts of exactly the valid configs keyed at `q`. -/
theorem registerChecks_apply (pid : String) (s : CheckStore)
    (cfgs : List CheckConfig) (q : String) :
    registerChecks pid s cfgs q =
      (cfgs.filter (touchesKey pid q)).foldl
        (fun x cfg => some (upsertCheck x pid cfg)) (s q) := by
  induction cfgs generalizing s with
  | nil => rfl
  | cons c cs ih =>
    simp only [registerChecks, List.foldl_cons] at *
    rw [ih]
    by_cases hv : checkConfigValid c
    · by_cases hq : q = pid ++ ":" ++ c.name
      · simp [List.filter_cons, touchesKey, hv, hq, applyCheckConfig]
      · simp [List.filter_cons, touchesKey, hv, hq, applyCheckConfig]
    · simp [List.filter_cons, touchesKey, hv, applyCheckConfig]

/-- Running one key's upsert chain twice equals running it once. -/
theorem foldl_upsert_idem (pid : String) (l : List CheckConfig) (x : Option Check) :
    l.foldl (fun y cfg => some (upsertCheck y pid cfg))
        (l.foldl (fun y cfg => some (upsertCheck y pid cfg)) x) =
      l.foldl (fun y cfg => some (upsertCheck y pid cfg)) x := by
  cases l with
  | nil => rfl
  | cons c cs =>
    have hR : updateCheckRow (upsertCheck x pid c) c = upsertCheck x pid c := by
      cases x with
      | none => exact updateCheckRow_insertCheckRow pid c
      | some r => exact updateCheckRow_updateCheckRow r c c
    simp only [List.foldl_cons, foldl_upsert_some, upsertCheck_some]
    rw [ruleFold_restore cs (upsertCheck x pid c) c hR]

/-- Running the whole config check loop twice with the same input
leaves the keyed store exactly as after the first run. -/
theorem registerChecks_idem (pid : String) (s : CheckStore) (cfgs : List CheckConfig) :
    registerChecks pid (registerChecks pid s cfgs) cfgs = registerChecks pid s cfgs := by
  funext q
  simp only [registerChecks_apply]
  exact foldl_upsert_idem pid _ (s q)

/-- C9: `PUT /api/config` is idempotent.  Re-running the check loop with
the same configs leaves every row as after the first run; the project
upsert is idempotent and, for an existing project, preserves
`maintenance_until`, `created_at`, `token` and `id`; the check
ON CONFLICT update rewrites exactly the rule attributes and leaves every
state attribute (and `monitor`) untouched. -/
theorem register_idempotent :
    (∀ (pid : String) (s : CheckStore) (cfgs : List CheckConfig),
      registerChecks pid (registerChecks pid s cfgs) cfgs = registerChecks pid s cfgs) ∧
    (∀ (e : Option Project) (pid tok dn : String) (sw : Option String) (n₁ n₂ : Nat),
      upsertProject (some (upsertProject e pid tok dn sw n₁)) pid tok dn sw n₂ =
        upsertProject e pid tok dn sw n₁) ∧
    (∀ (p : Project) (pid tok dn : String) (sw : Option String) (n : Nat),
      (upsertProject (some p) pid tok dn sw n).maintenance_until = p.maintenance_until ∧
      (upsertProject (some p) pid tok dn sw n).created_at = p.created_at ∧
      (upsertProject (some p) pid tok dn sw n).token = p.token ∧
      (upsertProject (some p) pid tok dn sw n).id = p.id) ∧
    (∀ (r : Check) (pid : String) (cfg : CheckConfig),
      (upsertCheck (some r) pid cfg).status = r.status ∧
      (upsertCheck (some r) pid cfg).last_seen = r.last_seen ∧
      (upsertCheck (some r) pid cfg).failure_count = r.failure_count ∧
      (upsertCheck (some r) pid cfg).last_alert_at = r.last_alert_at ∧
      (upsertCheck (some r) pid cfg).last_message = r.last_message ∧
      (upsertCheck (some r) pid cfg).monitor = r.monitor ∧
      (upsertCheck (some r) pid cfg).display_name = some (applyDisplayName cfg) ∧
      (upsertCheck (some r) pid cfg).type_ = cfg.type_ ∧
      (upsertCheck (some r) pid cfg).interval = cfg.interval ∧
      (upsertCheck (some r) pid cfg).grace = cfg.grace ∧
      (upsertCheck (some r) pid cfg).threshold = cfg.threshold ∧
      (upsertCheck (some r) pid cfg).cooldown = cfg.cooldown) := by
  refine ⟨registerChecks_idem, ?_, ?_, ?_⟩
  · intro e pid tok dn sw n₁ n₂
    cases e <;> cases sw <;> rfl
  · intro p pid tok dn sw n
    exact ⟨rfl, rfl, rfl, rfl⟩
  · intro r pid cfg
    exact ⟨rfl, rfl, rfl, rfl, rfl, rfl, rfl, rfl, rfl, rfl, rfl, rfl⟩

end WatchDog
